import Mathlib

/-!
Shallow embedding of the tokinotify crate and verification of its
specification claims.

The embedding covers the `Mask` flag word (src/mask.rs) and the
`INotify` channel manager with its event decoder (src/lib.rs).
Machine integers are modelled as `Nat` (the bitwise operations used
never overflow 32 bits when their inputs are 32-bit values); the byte
stream read by the decoder is modelled as a schedule of chunks, one
chunk per completed `read` call; the decoder's accumulation loops are
given explicit fuel, and a run that returns `outOfFuel` for every fuel
bound models a non-terminating execution of the source loop.
-/

/-- Flag word: newtype over a 32-bit unsigned integer
(src/mask.rs, `pub struct Mask(pub(crate) u32)`). -/
structure Mask where
  raw : Nat
deriving DecidableEq

namespace Mask

/-- File accessed (`Mask::ACCESS`). -/
def ACCESS : Mask := ⟨0x00000001⟩

/-- File modified (`Mask::MODIFY`). -/
def MODIFY : Mask := ⟨0x00000002⟩

/-- Metadata changed (`Mask::ATTRIB`). -/
def ATTRIB : Mask := ⟨0x00000004⟩

/-- Writable file was closed (`Mask::CLOSE_WRITE`). -/
def CLOSE_WRITE : Mask := ⟨0x00000008⟩

/-- Unwritable file closed (`Mask::CLOSE_NOWRITE`). -/
def CLOSE_NOWRITE : Mask := ⟨0x00000010⟩

/-- File was opened (`Mask::OPEN`). -/
def OPEN : Mask := ⟨0x00000020⟩

/-- File was moved from X (`Mask::MOVED_FROM`). -/
def MOVED_FROM : Mask := ⟨0x00000040⟩

/-- File was moved to Y (`Mask::MOVED_TO`). -/
def MOVED_TO : Mask := ⟨0x00000080⟩

/-- Subfile was created (`Mask::CREATE`). -/
def CREATE : Mask := ⟨0x00000100⟩

/-- Subfile was deleted (`Mask::DELETE`). -/
def DELETE : Mask := ⟨0x00000200⟩

/-- Self was deleted (`Mask::DELETE_SELF`). -/
def DELETE_SELF : Mask := ⟨0x00000400⟩

/-- Self was moved (`Mask::MOVE_SELF`). -/
def MOVE_SELF : Mask := ⟨0x00000800⟩

/-- Backing fs was unmounted (`Mask::UNMOUNT`). -/
def UNMOUNT : Mask := ⟨0x00002000⟩

/-- Event queue overflowed (`Mask::Q_OVERFLOW`). -/
def Q_OVERFLOW : Mask := ⟨0x00004000⟩

/-- File was ignored (`Mask::IGNORED`). -/
def IGNORED : Mask := ⟨0x00008000⟩

/-- Merged close flag (`Mask::CLOSE = CLOSE_WRITE | CLOSE_NOWRITE`). -/
def CLOSE : Mask := ⟨CLOSE_WRITE.raw ||| CLOSE_NOWRITE.raw⟩

/-- Merged move flag (`Mask::MOVE = MOVED_TO | MOVED_FROM`). -/
def MOVE : Mask := ⟨MOVED_TO.raw ||| MOVED_FROM.raw⟩

/-- Only watch the path if it is a directory (`Mask::ONLYDIR`). -/
def ONLYDIR : Mask := ⟨0x01000000⟩

/-- Don't follow a sym link (`Mask::DONT_FOLLOW`). -/
def DONT_FOLLOW : Mask := ⟨0x02000000⟩

/-- Exclude events on unlinked objects (`Mask::EXCL_UNLINK`). -/
def EXCL_UNLINK : Mask := ⟨0x04000000⟩

/-- Only create watches (`Mask::MASK_CREATE`). -/
def MASK_CREATE : Mask := ⟨0x10000000⟩

/-- Add to the mask of an existing watch (`Mask::MASK_ADD`). -/
def MASK_ADD : Mask := ⟨0x20000000⟩

/-- Event occurred against a directory (`Mask::ISDIR`). -/
def ISDIR : Mask := ⟨0x40000000⟩

/-- Only send the event once (`Mask::ONESHOT`). -/
def ONESHOT : Mask := ⟨0x80000000⟩

/-- The relevance mask: the constant `ALL` declared inside
`PartialEq for Mask` in src/mask.rs. -/
def ALL : Nat := 0xF700EFFF

/-- `<PartialEq for Mask>::eq`: equality of the two raw words after both
are masked to `ALL` (src/mask.rs lines 92-98). -/
def eq (a b : Mask) : Bool := a.raw &&& ALL == b.raw &&& ALL

/-- `BitAnd for Mask` (src/mask.rs lines 100-106). -/
def bitand (a b : Mask) : Mask := ⟨a.raw &&& b.raw⟩

/-- `BitOr for Mask` (src/mask.rs lines 114-120). -/
def bitor (a b : Mask) : Mask := ⟨a.raw ||| b.raw⟩

/-- `Mask::contains`: `(self & other) == other`, where `==` is the
relevance-masked equality above (src/mask.rs lines 87-89). -/
def contains (a b : Mask) : Bool := eq (bitand a b) b

end Mask

/-! Helper lemmas about bitwise arithmetic used by the Mask claims. -/

theorem land_lor_absorb (x y : Nat) : (x ||| y) &&& x = x := by
  apply Nat.eq_of_testBit_eq
  intro i
  rw [Nat.testBit_and, Nat.testBit_or]
  cases hx : Nat.testBit x i <;> cases hy : Nat.testBit y i <;> rfl

theorem land_land_self_left (x y : Nat) : x &&& (x &&& y) = x &&& y := by
  rw [← Nat.and_assoc, Nat.and_self]

theorem land_land_self_right (x y : Nat) : y &&& (x &&& y) = x &&& y := by
  apply Nat.eq_of_testBit_eq
  intro i
  simp only [Nat.testBit_and]
  cases hx : Nat.testBit x i <;> cases hy : Nat.testBit y i <;> rfl

theorem two_pow_land_eq_zero (i m : Nat) (h : Nat.testBit m i = false) :
    2 ^ i &&& m = 0 := by
  apply Nat.eq_of_testBit_eq
  intro j
  rw [Nat.testBit_and, Nat.zero_testBit]
  by_cases hij : i = j
  · subst hij
    rw [h]
    cases Nat.testBit (2 ^ i) i <;> rfl
  · rw [Nat.testBit_two_pow_of_ne hij]
    rfl

theorem land_xor_cancel (a x m : Nat) (h : x &&& m = 0) :
    (a ^^^ x) &&& m = a &&& m := by
  apply Nat.eq_of_testBit_eq
  intro i
  have hx : (Nat.testBit x i && Nat.testBit m i) = false := by
    have hcongr := congrArg (fun n => Nat.testBit n i) h
    simpa [Nat.testBit_and] using hcongr
  rw [Nat.testBit_and, Nat.testBit_xor, Nat.testBit_and]
  cases hm : Nat.testBit m i
  · cases Nat.testBit a i <;> cases Nat.testBit x i <;> rfl
  · have hx0 : Nat.testBit x i = false := by
      cases hxx : Nat.testBit x i
      · rfl
      · rw [hxx, hm] at hx
        exact absurd hx (by decide)
    rw [hx0]
    cases Nat.testBit a i <;> rfl

theorem land_eq_of_xor_land_zero {a b m : Nat} (h : (a ^^^ b) &&& m = 0) :
    a &&& m = b &&& m := by
  have hc := land_xor_cancel a (a ^^^ b) m h
  rw [← Nat.xor_assoc, Nat.xor_self, Nat.zero_xor] at hc
  exact hc.symm

theorem mask_contains_of_raw_land_eq {x y : Mask} (h : x.raw &&& y.raw = y.raw) :
    Mask.contains x y = true := by
  unfold Mask.contains Mask.bitand Mask.eq
  rw [h]
  exact beq_self_eq_true (y.raw &&& Mask.ALL)

/-- C5 (counterexample): the claim says `contains(a, b)` is true iff every
bit of `b`'s raw value is set in `a`'s raw value, i.e. iff
`a & b == b` as unrestricted 32-bit words. It is false at `a = Mask(0)`,
`b = Mask(0x1000)`: bit 12 lies outside the relevance mask, so
`contains` returns true while `0 &&& 0x1000 ≠ 0x1000`. -/
theorem contains_raw_subset_counterexample :
    Mask.contains ⟨0⟩ ⟨0x1000⟩ = true ∧ ¬((0 : Nat) &&& 0x1000 = 0x1000) := by
  constructor
  · rfl
  · decide

/-- C5 (amended): `contains(a, b)` returns true iff every bit set in `b`'s
raw value that lies inside the relevance mask `0xF700EFFF` is also set
in `a`'s raw value; bits of `b` outside the relevance mask are ignored,
because `contains` compares with the relevance-masked equality. -/
theorem contains_iff_relevant_subset (a b : Mask) :
    Mask.contains a b = true ↔
      ∀ i, Nat.testBit Mask.ALL i = true → Nat.testBit b.raw i = true →
        Nat.testBit a.raw i = true := by
  unfold Mask.contains Mask.bitand Mask.eq
  rw [beq_iff_eq]
  constructor
  · intro h i hAll hb
    have hcongr := congrArg (fun n => Nat.testBit n i) h
    simp only [Nat.testBit_and, hAll, hb, Bool.and_true] at hcongr
    exact hcongr
  · intro h
    apply Nat.eq_of_testBit_eq
    intro i
    rw [Nat.testBit_and, Nat.testBit_and, Nat.testBit_and]
    cases hAll : Nat.testBit Mask.ALL i
    · cases Nat.testBit a.raw i <;> cases Nat.testBit b.raw i <;> rfl
    · cases hb : Nat.testBit b.raw i
      · cases Nat.testBit a.raw i <;> rfl
      · rw [h i hAll hb]
        rfl

/-- C5 (amended, witness): instantiating the amended claim at
`a = Mask(3)`, `b = Mask(2)` and bit 1. -/
theorem contains_iff_relevant_subset_witness :
    Nat.testBit (Mask.mk 3).raw 1 = true :=
  (contains_iff_relevant_subset ⟨3⟩ ⟨2⟩).mp (by decide) 1 (by decide) (by decide)

/-- C6: Mask equality is reflexive; toggling any bit position outside the
relevance mask (in `a` or in `b`) never changes the outcome of `a == b`;
and two masks differing only in bits outside the relevance mask compare
equal. -/
theorem mask_eq_insensitive_outside_relevance (a b : Mask) (i : Nat)
    (h : Nat.testBit Mask.ALL i = false) :
    Mask.eq a a = true ∧
    Mask.eq ⟨a.raw ^^^ 2 ^ i⟩ b = Mask.eq a b ∧
    Mask.eq a ⟨b.raw ^^^ 2 ^ i⟩ = Mask.eq a b ∧
    ((a.raw ^^^ b.raw) &&& Mask.ALL = 0 → Mask.eq a b = true) := by
  refine ⟨beq_self_eq_true (a.raw &&& Mask.ALL), ?_, ?_, ?_⟩
  · unfold Mask.eq
    rw [land_xor_cancel a.raw (2 ^ i) Mask.ALL (two_pow_land_eq_zero i Mask.ALL h)]
  · unfold Mask.eq
    rw [land_xor_cancel b.raw (2 ^ i) Mask.ALL (two_pow_land_eq_zero i Mask.ALL h)]
  · intro hd
    unfold Mask.eq
    rw [beq_iff_eq]
    exact land_eq_of_xor_land_zero hd

/-- C6 (witness): bit 27 lies outside the relevance mask; instantiating
the theorem at `a = Mask(0)`, `b = Mask(0x1000)`, `i = 27`. -/
theorem mask_eq_insensitive_outside_relevance_witness :
    Nat.testBit Mask.ALL 27 = false ∧ Mask.eq ⟨0⟩ ⟨0⟩ = true :=
  ⟨by decide, (mask_eq_insensitive_outside_relevance ⟨0⟩ ⟨0x1000⟩ 27 (by decide)).1⟩

/-- C7: the union of two masks contains both; the intersection is
contained by both; every mask contains itself; and union and
intersection are each commutative, associative, and idempotent. -/
theorem mask_lattice_laws (a b c : Mask) :
    Mask.contains (Mask.bitor a b) a = true ∧
    Mask.contains (Mask.bitor a b) b = true ∧
    Mask.contains a (Mask.bitand a b) = true ∧
    Mask.contains b (Mask.bitand a b) = true ∧
    Mask.contains a a = true ∧
    Mask.bitor a b = Mask.bitor b a ∧
    Mask.bitor (Mask.bitor a b) c = Mask.bitor a (Mask.bitor b c) ∧
    Mask.bitor a a = a ∧
    Mask.bitand a b = Mask.bitand b a ∧
    Mask.bitand (Mask.bitand a b) c = Mask.bitand a (Mask.bitand b c) ∧
    Mask.bitand a a = a := by
  refine ⟨?_, ?_, ?_, ?_, ?_, ?_, ?_, ?_, ?_, ?_, ?_⟩
  · exact mask_contains_of_raw_land_eq (land_lor_absorb a.raw b.raw)
  · refine mask_contains_of_raw_land_eq ?_
    show (a.raw ||| b.raw) &&& b.raw = b.raw
    rw [Nat.or_comm]
    exact land_lor_absorb b.raw a.raw
  · exact mask_contains_of_raw_land_eq (land_land_self_left a.raw b.raw)
  · exact mask_contains_of_raw_land_eq (land_land_self_right a.raw b.raw)
  · exact mask_contains_of_raw_land_eq (Nat.and_self a.raw)
  · unfold Mask.bitor
    rw [Nat.or_comm]
  · unfold Mask.bitor
    rw [Nat.or_assoc]
  · unfold Mask.bitor
    rw [Nat.or_self]
  · unfold Mask.bitand
    rw [Nat.and_comm]
  · unfold Mask.bitand
    rw [Nat.and_assoc]
  · unfold Mask.bitand
    rw [Nat.and_self]

/-- C10: Mask equality is an equivalence relation — reflexive, symmetric,
transitive — and a mask compares equal exactly to the values that agree
with it on the relevance-mask bits 0xF700EFFF. -/
theorem mask_eq_equivalence :
    (∀ a : Mask, Mask.eq a a = true) ∧
    (∀ a b : Mask, Mask.eq a b = Mask.eq b a) ∧
    (∀ a b c : Mask, Mask.eq a b = true → Mask.eq b c = true → Mask.eq a c = true) ∧
    (∀ a b : Mask, Mask.eq a b = true ↔ a.raw &&& 0xF700EFFF = b.raw &&& 0xF700EFFF) := by
  refine ⟨?_, ?_, ?_, ?_⟩
  · intro a
    exact beq_self_eq_true (a.raw &&& Mask.ALL)
  · intro a b
    unfold Mask.eq
    rw [Bool.eq_iff_iff, beq_iff_eq, beq_iff_eq]
    exact eq_comm
  · intro a b c h1 h2
    unfold Mask.eq at h1 h2 ⊢
    rw [beq_iff_eq] at h1 h2 ⊢
    exact h1.trans h2
  · intro a b
    unfold Mask.eq
    rw [beq_iff_eq]
    exact Iff.rfl

/-- C10 (witness): transitivity applied at concrete masks that differ
only in bits outside the relevance mask. -/
theorem mask_eq_equivalence_witness :
    Mask.eq ⟨1⟩ ⟨0x08000001⟩ = true :=
  mask_eq_equivalence.2.2.1 ⟨1⟩ ⟨0x10001⟩ ⟨0x08000001⟩ (by decide) (by decide)

/-! Event decoder embedding (src/lib.rs).

The asynchronous byte source is modelled as a schedule of chunks, one
chunk per completed `read` call; an exhausted schedule delivers
zero-byte reads forever, which is how tokio's `File::read` reports end
of stream. Bytes are `Nat` values below 256. -/

/-- A byte stream: the schedule of chunks successive `read` calls
deliver. -/
abbrev ByteStream := List (List Nat)

/-- One `self.file.read(&mut buffer[amt..limit])` call against the
schedule: it delivers the next chunk, capped at the `n` bytes the slice
can hold; surplus bytes stay at the front of the stream for the next
call. An empty schedule returns zero bytes (end of stream). -/
def readStep (n : Nat) (s : ByteStream) : List Nat × ByteStream :=
  match s with
  | [] => ([], [])
  | c :: rest => if c.length ≤ n then (c, rest) else (c.take n, c.drop n :: rest)

/-- Outcome of one accumulation loop
(`while amt < total { amt += read(&mut buffer[amt..total]) }` over a
buffer of `cap` bytes): `success` carries the accumulated bytes and the
remaining stream; `sliceOutOfRange` models the panic of
`buffer[amt..total]` when `total` exceeds the buffer capacity, carrying
the stream untouched by the current iteration; `outOfFuel` means the
fuel bound was exhausted — the source loop has no termination guarantee,
since a zero-byte read leaves `amt` unchanged. -/
inductive LoopResult where
  | success (bytes : List Nat) (rest : ByteStream)
  | sliceOutOfRange (rest : ByteStream)
  | outOfFuel
deriving DecidableEq

/-- The accumulation loop of `INotify::watch` (src/lib.rs lines 104-107
with `cap = total = 16`, and lines 113-116 with `cap = 0x1000`,
`total = header.len`). Each iteration first forms the slice
`buffer[amt..total]` — panicking if `total > cap` — then reads into it
and adds the bytes received. -/
def readLoop (fuel cap total : Nat) (acc : List Nat) (s : ByteStream) : LoopResult :=
  match fuel with
  | 0 => .outOfFuel
  | fuel + 1 =>
    if total ≤ acc.length then .success acc s
    else if cap < total then .sliceOutOfRange s
    else
      let p := readStep (total - acc.length) s
      readLoop fuel cap total (acc ++ p.1) p.2

/-- The 16-byte wire header (src/lib.rs `struct EventHeader`):
`wd: c_int`, `mask: u32`, `cookie: u32`, `len: u32`. -/
structure EventHeader where
  wd : Int
  mask : Nat
  cookie : Nat
  len : Nat
deriving DecidableEq

/-- A 32-bit little-endian value from four bytes; the source transmutes
the buffer on a little-endian machine (x86-64 / aarch64 Linux). -/
def le32 (b0 b1 b2 b3 : Nat) : Nat :=
  b0 + 256 * b1 + 65536 * b2 + 16777216 * b3

/-- Interpret a 32-bit word as the signed `c_int` of the header's `wd`
field (two's complement). -/
def asI32 (v : Nat) : Int :=
  if v < 2147483648 then (v : Int) else (v : Int) - 4294967296

/-- The `transmute` of the 16 header bytes into `EventHeader`
(src/lib.rs line 109): four native-endian 32-bit fields in declaration
order. Missing bytes read as the buffer's zero initialisation. -/
def parseHeader (b : List Nat) : EventHeader :=
  { wd := asI32 (le32 (b.getD 0 0) (b.getD 1 0) (b.getD 2 0) (b.getD 3 0))
    mask := le32 (b.getD 4 0) (b.getD 5 0) (b.getD 6 0) (b.getD 7 0)
    cookie := le32 (b.getD 8 0) (b.getD 9 0) (b.getD 10 0) (b.getD 11 0)
    len := le32 (b.getD 12 0) (b.getD 13 0) (b.getD 14 0) (b.getD 15 0) }

/-- A WatchDescriptor (src/lib.rs `struct Watch`). -/
structure Watch where
  wd : Int
deriving DecidableEq

/-- An event returned by the kernel (src/lib.rs `struct Event`); the
path is the byte sequence `OsStr::from_bytes(&buffer[0..total])`
produces. -/
structure Event where
  watch : Watch
  mask : Mask
  cookie : Nat
  path : List Nat
deriving DecidableEq

/-- Outcome of one `INotify::watch` call under the stream model. -/
inductive WatchResult where
  | ok (e : Event) (rest : ByteStream)
  | sliceOutOfRange (rest : ByteStream)
  | outOfFuel
deriving DecidableEq

/-- The tail of `INotify::watch` after the name bytes are accumulated
(src/lib.rs lines 118-126): the path is `buffer[0..total]` — the bytes
read, followed by the buffer's zero initialisation up to the 0x1000
capacity, truncated to `header.len`. No NUL trimming is performed. -/
def finishName (header : EventHeader) (r : LoopResult) : WatchResult :=
  match r with
  | .outOfFuel => .outOfFuel
  | .sliceOutOfRange t => .sliceOutOfRange t
  | .success nbytes s2 =>
    .ok { watch := ⟨header.wd⟩, mask := ⟨header.mask⟩, cookie := header.cookie,
          path := (nbytes ++ List.replicate (0x1000 - nbytes.length) 0).take header.len } s2

/-- The name phase of `INotify::watch` (src/lib.rs lines 110-116): a
fresh 0x1000-byte buffer accumulates `header.len` bytes. -/
def startName (fuel : Nat) (header : EventHeader) (s1 : ByteStream) : WatchResult :=
  finishName header (readLoop fuel 0x1000 header.len [] s1)

/-- `INotify::watch` (src/lib.rs lines 100-127): accumulate the 16
header bytes, transmute them, then run the name phase. -/
def INotify.watch (fuel : Nat) (s : ByteStream) : WatchResult :=
  match readLoop fuel 16 16 [] s with
  | .outOfFuel => .outOfFuel
  | .sliceOutOfRange t => .sliceOutOfRange t
  | .success hbytes s1 => startName fuel (parseHeader hbytes) s1

/-! Lifecycle operations (src/lib.rs). Each wraps one syscall; the
syscall's result is modelled by its return value `ret` together with
the thread's `errno` value at that point — the OS error code the
specification says must be preserved. The source builds its error with
`io::Error::from_raw_os_error(res)` where `res` is the `-1` return
value, never consulting `errno`. -/

/-- Model of `std::io::Error::from_raw_os_error`: an error value
carrying the given OS error code. -/
structure IoError where
  code : Int
deriving DecidableEq

/-- `INotify::new` (src/lib.rs lines 66-76): on `inotify_init1`
returning -1 it fails with `from_raw_os_error(fd)`; otherwise the
returned descriptor is kept. -/
def INotify.new (ret _errno : Int) : Except IoError Int :=
  if ret = -1 then .error ⟨ret⟩ else .ok ret

/-- `INotify::add` (src/lib.rs lines 79-87): on `inotify_add_watch`
returning -1 it fails with `from_raw_os_error(res)`; otherwise the
result is the watch descriptor. -/
def INotify.add (ret _errno : Int) : Except IoError Watch :=
  if ret = -1 then .error ⟨ret⟩ else .ok ⟨ret⟩

/-- `INotify::rm` (src/lib.rs lines 90-97): on `inotify_rm_watch`
returning -1 it fails with `from_raw_os_error(res)`. -/
def INotify.rm (ret _errno : Int) : Except IoError Unit :=
  if ret = -1 then .error ⟨ret⟩ else .ok ()

/-- `INotify::close` (src/lib.rs lines 130-139): on `close` returning
-1 it fails with `from_raw_os_error(res)`. -/
def INotify.close (ret _errno : Int) : Except IoError Unit :=
  if ret = -1 then .error ⟨ret⟩ else .ok ()

/-! Concrete byte streams used by the decoder claims. -/

/-- First ten bytes of the C1 header: wd=5, mask=2 (MODIFY), and the
first two cookie bytes. -/
def c1Head : List Nat := [5, 0, 0, 0, 2, 0, 0, 0, 42, 0]

/-- Remaining six header bytes (cookie=42, len=8) followed by the eight
name bytes "file\x00\x00\x00\x00". -/
def c1Tail : List Nat := [0, 0, 8, 0, 0, 0, 102, 105, 108, 101, 0, 0, 0, 0]

/-- The C1 record split across two partial reads at byte 10. -/
def c1Stream : ByteStream := [c1Head, c1Tail]

/-- A stream that delivers only 10 of the 16 header bytes and then
reaches end of stream. -/
def truncStream : ByteStream := [c1Head]

/-- A 16-byte header declaring a name length of 8192 (> 0x1000). -/
def oversizedHead : List Nat := [1, 0, 0, 0, 2, 0, 0, 0, 0, 0, 0, 0, 0, 32, 0, 0]

/-- The oversized-name stream; the sentinel chunk [99] after the header
would be consumed by any name-phase read. -/
def oversizedStream : ByteStream := [oversizedHead, [99]]

/-- A 16-byte header with wd=1, mask=4 (ATTRIB), cookie=0 and name
length 0. -/
def zeroHdr : List Nat := [1, 0, 0, 0, 4, 0, 0, 0, 0, 0, 0, 0, 0, 0, 0, 0]

/-- The zero-name stream; the sentinel chunk [7] after the header would
be consumed by any name-phase read. -/
def zeroHdrStream : ByteStream := [zeroHdr, [7]]

/-- Once the stream is exhausted with fewer bytes accumulated than
`total`, the loop makes no progress for any amount of fuel: every
further read returns zero bytes. -/
theorem readLoop_empty_stuck (fuel cap total : Nat) (acc : List Nat)
    (h1 : acc.length < total) (h2 : ¬cap < total) :
    readLoop fuel cap total acc [] = .outOfFuel := by
  induction fuel generalizing acc with
  | zero => rfl
  | succ n ih =>
    unfold readLoop
    rw [if_neg (Nat.not_le.mpr h1), if_neg h2]
    show readLoop n cap total (acc ++ []) [] = .outOfFuel
    rw [List.append_nil]
    exact ih acc h1

/-- If the header phase succeeds, `INotify::watch` continues with the
name phase on the parsed header. -/
theorem watch_of_header_success (fuel : Nat) (s : ByteStream) (hb : List Nat)
    (s1 : ByteStream) (h : readLoop fuel 16 16 [] s = .success hb s1) :
    INotify.watch fuel s = startName fuel (parseHeader hb) s1 := by
  unfold INotify.watch
  rw [h]

/-- C1: on the spec's round-trip input — header wd=5, mask=2 (MODIFY),
cookie=42, name length 8, then "file\x00\x00\x00\x00", split across two
reads at byte 10 — the decoder reassembles the record correctly, but it
does NOT trim the trailing NUL padding: the resulting path is the eight
raw bytes "file\x00\x00\x00\x00", not "file". -/
theorem watch_keeps_nul_padding :
    INotify.watch 3 c1Stream =
      .ok { watch := ⟨5⟩, mask := ⟨2⟩, cookie := 42,
            path := [102, 105, 108, 101, 0, 0, 0, 0] } [] ∧
    Mask.eq ⟨2⟩ Mask.MODIFY = true ∧
    ([102, 105, 108, 101, 0, 0, 0, 0] : List Nat) ≠ [102, 105, 108, 101] := by
  refine ⟨?_, rfl, by decide⟩
  rfl

/-- C2: when the stream reaches end of stream after delivering only 10
of the 16 header bytes, `INotify::watch` never terminates: every
further read returns zero bytes and leaves `amt` unchanged, so the
header loop runs forever (out of fuel for every fuel bound) instead of
failing with a decode error. -/
theorem watch_truncated_header_loops (fuel : Nat) :
    INotify.watch fuel truncStream = .outOfFuel := by
  cases fuel with
  | zero => rfl
  | succ n =>
    have hstep : readLoop (n + 1) 16 16 [] truncStream
        = readLoop n 16 16 c1Head [] := rfl
    have h : readLoop (n + 1) 16 16 [] truncStream = .outOfFuel := by
      rw [hstep]
      exact readLoop_empty_stuck n 16 16 c1Head (by decide) (by decide)
    unfold INotify.watch
    rw [h]

/-- C3: a header declaring a name length of 8192 (> 0x1000) makes
`INotify::watch` panic — the slice `buffer[amt..total]` is out of range
for the 0x1000-byte buffer — before any name-phase read: the sentinel
chunk after the header is still in the stream. No decode error is
returned. -/
theorem watch_oversized_name_panics :
    INotify.watch 2 oversizedStream = .sliceOutOfRange [[99]] := by
  rfl

/-- C8: whenever the header phase succeeds with a header whose declared
name length is zero, `INotify::watch` returns an event with the empty
path, and the name phase performs no read: the stream is returned
exactly as the header phase left it. -/
theorem watch_zero_name_length (fuel : Nat) (s : ByteStream) (hb : List Nat)
    (s1 : ByteStream) (hsucc : readLoop fuel 16 16 [] s = .success hb s1)
    (hlen : (parseHeader hb).len = 0) :
    INotify.watch fuel s =
      .ok { watch := ⟨(parseHeader hb).wd⟩, mask := ⟨(parseHeader hb).mask⟩,
            cookie := (parseHeader hb).cookie, path := [] } s1 := by
  cases fuel with
  | zero =>
    rw [show readLoop 0 16 16 [] s = .outOfFuel from rfl] at hsucc
    cases hsucc
  | succ n =>
    unfold INotify.watch
    rw [hsucc]
    show startName (n + 1) (parseHeader hb) s1 = _
    unfold startName
    rw [hlen]
    show finishName (parseHeader hb) (.success [] s1) = _
    unfold finishName
    rw [hlen]
    rfl

/-- C8 (witness): a concrete 16-byte header with name length 0 followed
by a sentinel chunk; the event has the empty path and the sentinel is
untouched. -/
theorem watch_zero_name_length_witness :
    INotify.watch 2 zeroHdrStream =
      .ok { watch := ⟨1⟩, mask := ⟨4⟩, cookie := 0, path := [] } [[7]] :=
  watch_zero_name_length 2 zeroHdrStream zeroHdr [[7]] (by decide) (by decide)

/-- C4: when a lifecycle syscall fails (returns -1), the error returned
to the caller is built by `from_raw_os_error(res)` from the -1 return
value itself, for every value of `errno`: the OS's actual error code —
here 13, EACCES — is not preserved. -/
theorem os_errno_not_preserved :
    INotify.new (-1) 13 = .error ⟨-1⟩ ∧
    INotify.add (-1) 13 = .error ⟨-1⟩ ∧
    INotify.rm (-1) 13 = .error ⟨-1⟩ ∧
    INotify.close (-1) 13 = .error ⟨-1⟩ ∧
    (∀ errno : Int, INotify.new (-1) errno = .error ⟨-1⟩ ∧
      INotify.add (-1) errno = .error ⟨-1⟩ ∧
      INotify.rm (-1) errno = .error ⟨-1⟩ ∧
      INotify.close (-1) errno = .error ⟨-1⟩) ∧
    (IoError.mk (-1)).code ≠ 13 := by
  refine ⟨rfl, rfl, rfl, rfl, fun _ => ⟨rfl, rfl, rfl, rfl⟩, by decide⟩
